import Mathlib

/-!
Shallow embedding of the authentication core of the fastapi-starter
repository (src/app/crud/security.py, src/app/crud/auth.py,
src/app/routes/auth.py, src/app/routes/users.py) together with models of
its two external libraries, PyJWT (`import jwt`) and `bcrypt`.

Time is modelled as seconds since the epoch (`Int`).  The `bcrypt` key
derivation function is idealised as collision-free (its output is the
salt/plaintext pair itself), which is the standard reading of the
"with overwhelming probability" clauses; everything else follows the
Python source line by line.
-/

namespace App

/-- Equality of fallible results is decidable, so concrete runs of the
embedded functions can be checked by `decide`. -/
instance {ε α : Type} [DecidableEq ε] [DecidableEq α] :
    DecidableEq (Except ε α) := fun a b =>
  match a, b with
  | .ok a, .ok b => decidable_of_iff (a = b) (by simp)
  | .error a, .error b => decidable_of_iff (a = b) (by simp)
  | .ok _, .error _ => .isFalse (by simp)
  | .error _, .ok _ => .isFalse (by simp)

/-! ### Model of the external `bcrypt` library -/

/-- The output of bcrypt's key-derivation function, idealised as
collision-free: the derived key is represented by the (salt, password)
pair that produced it. -/
structure BcryptDigest where
  salt : String
  pwd : String
deriving DecidableEq, Repr

/-- A password-hash blob.  `bcrypt.hashpw` output is `wellFormed`
(a modular-crypt string embedding the salt and the derived key);
any other string is `malformed` and is rejected by the library
with `ValueError("Invalid salt")`. -/
inductive HashBlob where
  | wellFormed (salt : String) (digest : BcryptDigest)
  | malformed (raw : String)
deriving DecidableEq, Repr

/-- Exceptions raised by the bcrypt library. -/
inductive BcryptError where
  | invalidSalt
deriving DecidableEq, Repr

/-- Idealised bcrypt KDF: collision-free in both arguments. -/
def bcrypt_kdf (salt password : String) : BcryptDigest :=
  ⟨salt, password⟩

/-- `bcrypt.hashpw(password, salt)`: derives a key from the password and
the salt and embeds both the salt and the derived key in the blob.
The caller passes `bcrypt.gensalt()` for `salt`; its randomness is
modelled by quantifying over the salt argument. -/
def bcrypt_hashpw (password salt : String) : HashBlob :=
  .wellFormed salt (bcrypt_kdf salt password)

/-- `bcrypt.checkpw(password, hashed)`: re-derives the key with the salt
embedded in the blob and compares.  On a blob that is not valid bcrypt
output it raises `ValueError("Invalid salt")` (it does NOT return
`False`), modelled by the `.error` result. -/
def bcrypt_checkpw (password : String) (hashed : HashBlob) :
    Except BcryptError Bool :=
  match hashed with
  | .malformed _ => .error .invalidSalt
  | .wellFormed salt digest => .ok (decide (digest = bcrypt_kdf salt password))

/-! ### Model of the external PyJWT library -/

/-- The JWT claim set used by this repository: `exp`, `nbf`, `sub`,
`role` (access tokens carry `sub`+`role`+`exp`; reset tokens carry
`sub`+`exp`+`nbf`). -/
structure JwtPayload where
  exp : Option Int := none
  nbf : Option Int := none
  sub : Option String := none
  role : Option String := none
deriving DecidableEq, Repr

/-- A bearer-token string: either a well-formed JWT (payload plus the
key it was signed with — signature verification succeeds exactly when
the decoding key equals the signing key) or a structurally malformed
string. -/
inductive JwtToken where
  | signed (payload : JwtPayload) (key : String)
  | malformed (raw : String)
deriving DecidableEq, Repr

/-- PyJWT exception taxonomy (the part this repository can hit).
`InvalidSignatureError` is a subclass of `DecodeError` in PyJWT;
`ExpiredSignatureError` and `ImmatureSignatureError` are not. -/
inductive JwtError where
  | decodeError
  | invalidSignature
  | expiredSignature
  | immatureSignature
deriving DecidableEq, Repr

/-- Whether a PyJWT exception is caught by `except jwt.exceptions.DecodeError`:
true exactly for `DecodeError` and its subclass `InvalidSignatureError`. -/
def JwtError.isDecodeError : JwtError → Bool
  | .decodeError => true
  | .invalidSignature => true
  | .expiredSignature => false
  | .immatureSignature => false

/-- PyJWT `_validate_exp` (with zero leeway): raises
`ExpiredSignatureError` when `exp < now`. -/
def jwt_checkExp (p : JwtPayload) (now : Int) : Except JwtError JwtPayload :=
  match p.exp with
  | some e => if e < now then .error .expiredSignature else .ok p
  | none => .ok p

/-- `jwt.decode(token, key, algorithms=[...])` with default options:
`DecodeError` on a structurally malformed string,
`InvalidSignatureError` when the signing key differs from `key`, then
claim validation: `nbf` (raises `ImmatureSignatureError` when
`now < nbf`) before `exp`. -/
def jwt_decode (t : JwtToken) (key : String) (now : Int) :
    Except JwtError JwtPayload :=
  match t with
  | .malformed _ => .error .decodeError
  | .signed p k =>
    if k = key then
      match p.nbf with
      | some n => if now < n then .error .immatureSignature else jwt_checkExp p now
      | none => jwt_checkExp p now
    else .error .invalidSignature

/-! ### Configuration (src/config.py) -/

/-- `settings.SECRET_KEY`: a single process-wide signing key
(`secrets.token_urlsafe(32)` at startup), modelled as an opaque constant. -/
def SECRET_KEY : String := "process-wide-secret"

/-- `settings.ACCESS_TOKEN_EXPIRE_MINUTES = 30`. -/
def ACCESS_TOKEN_EXPIRE_MINUTES : Int := 30

/-- `settings.EMAIL_RESET_TOKEN_EXPIRE_HOURS = 48`. -/
def EMAIL_RESET_TOKEN_EXPIRE_HOURS : Int := 48

/-! ### Data model -/

/-- Modelled from the spec: the closed role set {USER, ADMIN}
(`UserRole` in the user table module, which is not present under src/;
its declaration survives in src/app/models/user.py). -/
inductive UserRole where
  | user
  | admin
deriving DecidableEq, Repr

/-- The string value of a role (`UserRole` is a `str` enum in Python,
so it serialises to its value inside a JWT payload). -/
def UserRole.str : UserRole → String
  | .user => "user"
  | .admin => "admin"

/-- Modelled from the spec: the Identity record
(`User` in src/app/migrations/tables.py, which is not present under
src/): opaque unique id, unique email, unique username, stored password
hash, active flag, role.  Only the fields the auth core reads are
modelled. -/
structure User where
  id : String
  email : String
  username : String
  hashed_password : HashBlob
  is_active : Bool
  role : UserRole
deriving DecidableEq, Repr

/-- The external identity store, modelled as the list of rows the
database would return; `.first()` takes the head of the result. -/
abbrev Store := List User

/-! ### src/app/crud/security.py -/

/-- `create_access_token(subject, role, expires_delta)`: the branch is
`if expires_delta:` — Python truthiness, and `timedelta(0)` is falsy —
so the absolute expiry is issue-time plus the given delta only when the
delta is present AND nonzero, and issue-time plus
`ACCESS_TOKEN_EXPIRE_MINUTES` both when it is absent and when it is the
zero delta; payload is `{"exp": expire, "sub": str(subject), "role": role}`,
signed with `SECRET_KEY`.  `expires_delta` is in seconds; `now` is the
issue time. -/
def create_access_token (subject role : String) (expires_delta : Option Int)
    (now : Int) : JwtToken :=
  let expire : Int :=
    match expires_delta with
    | some d =>
      if d = 0 then now + ACCESS_TOKEN_EXPIRE_MINUTES * 60 else now + d
    | none => now + ACCESS_TOKEN_EXPIRE_MINUTES * 60
  .signed { exp := some expire, sub := some subject, role := some role } SECRET_KEY

/-- `verify_password(plain_password, hashed_password)`: a direct call to
`bcrypt.checkpw` with no exception handling, so a malformed stored blob
propagates bcrypt's `ValueError`. -/
def verify_password (plain_password : String) (hashed_password : HashBlob) :
    Except BcryptError Bool :=
  bcrypt_checkpw plain_password hashed_password

/-- `get_password_hash(password)`: `bcrypt.hashpw(password, bcrypt.gensalt())`.
The fresh random salt from `gensalt()` is the `salt` argument. -/
def get_password_hash (password salt : String) : HashBlob :=
  bcrypt_hashpw password salt

/-- Errors observable at the route layer: HTTP failures plus unhandled
exceptions that escape the handler. -/
inductive ApiError where
  /-- 401 "Could not validate credentials" (`credentials_exception`). -/
  | credentialsException
  /-- 400 "Inactive user". -/
  | inactiveUser
  /-- 403 "The user doesn't have enough privileges". -/
  | insufficientPrivileges
  /-- 401 "Incorrect username or password" (login). -/
  | incorrectLogin
  /-- 400 "Invalid token" (reset confirm). -/
  | invalidToken
  /-- 404 "User not found". -/
  | userNotFound
  /-- 400 "Email already registered". -/
  | emailTaken
  /-- 400 "Username already registered". -/
  | usernameTaken
  /-- A PyJWT exception not caught by any handler, escaping as a server
  error. -/
  | unhandledJwt (e : JwtError)
  /-- A bcrypt `ValueError` not caught by any handler. -/
  | unhandledBcrypt (e : BcryptError)
  /-- The `AttributeError` raised by evaluating `jwt.JWTError` in an
  `except` clause: PyJWT defines no `JWTError`, so the except clause
  itself fails when any exception reaches it. -/
  | attributeError
deriving DecidableEq, Repr

/-- `verify_password_reset_token(token)`: decodes with `SECRET_KEY` and
returns `payload["sub"]`.  The `except jwt.JWTError` clause is broken —
PyJWT has no `JWTError` attribute — so any decode failure (and the
`KeyError` from a missing `"sub"`) escapes as an `AttributeError`
instead of returning `None`. -/
def verify_password_reset_token (token : JwtToken) (now : Int) :
    Except ApiError String :=
  match jwt_decode token SECRET_KEY now with
  | .error _ => .error .attributeError
  | .ok p =>
    match p.sub with
    | some s => .ok s
    | none => .error .attributeError

/-- `generate_password_reset_token(email)`: payload
`{"exp": now + 48h, "nbf": now, "sub": email}` signed with `SECRET_KEY`. -/
def generate_password_reset_token (email : String) (now : Int) : JwtToken :=
  .signed
    { exp := some (now + EMAIL_RESET_TOKEN_EXPIRE_HOURS * 3600)
      nbf := some now
      sub := some email } SECRET_KEY

/-! ### src/app/crud/auth.py -/

/-- `get_current_user(token, db)`: decodes the bearer token with
`SECRET_KEY`; only `jwt.exceptions.DecodeError` is caught and mapped to
the 401 `credentials_exception` (an `ExpiredSignatureError` or
`ImmatureSignatureError` escapes unhandled); a missing `sub`, and a
subject id matching no stored user, also raise `credentials_exception`;
an inactive user raises 400 "Inactive user".  The `TokenPayload` model
it builds is not present under src/ and is modelled from the spec as a
pass-through claim set. -/
def get_current_user (token : JwtToken) (db : Store) (now : Int) :
    Except ApiError User :=
  match jwt_decode token SECRET_KEY now with
  | .error e =>
    if e.isDecodeError then .error .credentialsException
    else .error (.unhandledJwt e)
  | .ok payload =>
    match payload.sub with
    | none => .error .credentialsException
    | some user_id =>
      match db.find? (fun u => u.id == user_id) with
      | none => .error .credentialsException
      | some user =>
        if user.is_active then .ok user else .error .inactiveUser

/-- `get_current_active_user(current_user)`: re-checks the active flag on
the user resolved by `get_current_user`. -/
def get_current_active_user (token : JwtToken) (db : Store) (now : Int) :
    Except ApiError User :=
  match get_current_user token db now with
  | .error e => .error e
  | .ok current_user =>
    if current_user.is_active then .ok current_user
    else .error .inactiveUser

/-- `get_current_admin_user(current_user)`: 403 unless the resolved
user's role is exactly ADMIN. -/
def get_current_admin_user (token : JwtToken) (db : Store) (now : Int) :
    Except ApiError User :=
  match get_current_user token db now with
  | .error e => .error e
  | .ok current_user =>
    if current_user.role = UserRole.admin then .ok current_user
    else .error .insufficientPrivileges

/-- `authenticate_user(db, username, password)`: first row whose email
or username equals the identifier; `None` when there is no such row and
`None` when `verify_password` returns false; a bcrypt exception from a
malformed stored hash propagates. -/
def authenticate_user (db : Store) (username password : String) :
    Except BcryptError (Option User) :=
  match db.find? (fun u => u.email == username || u.username == username) with
  | none => .ok none
  | some user =>
    match verify_password password user.hashed_password with
    | .error e => .error e
    | .ok true => .ok (some user)
    | .ok false => .ok none

/-! ### src/app/routes/auth.py -/

/-- The login response body. -/
structure Token where
  access_token : JwtToken
  token_type : String
deriving DecidableEq, Repr

/-- `login_access_token`: authenticate; 401 on `None`; 400 when the
authenticated user is inactive; otherwise issue an access token with
the configured ttl for `str(user.id)` and the user's role. -/
def login_access_token (db : Store) (username password : String) (now : Int) :
    Except ApiError Token :=
  match authenticate_user db username password with
  | .error e => .error (.unhandledBcrypt e)
  | .ok none => .error .incorrectLogin
  | .ok (some user) =>
    if user.is_active then
      .ok ⟨create_access_token user.id user.role.str
            (some (ACCESS_TOKEN_EXPIRE_MINUTES * 60)) now, "bearer"⟩
    else .error .inactiveUser

/-- `reset_password_confirm(body)`: `verify_password_reset_token` on the
submitted token; 400 "Invalid token" when it returns a falsy value
(empty subject); 404 "User not found" when no stored user has the
returned string as email; otherwise replaces that user's
`hashed_password` with `get_password_hash(new_password)` and commits.
Returns the updated store. -/
def reset_password_confirm (db : Store) (token : JwtToken)
    (new_password : String) (now : Int) (salt : String) :
    Except ApiError Store :=
  match verify_password_reset_token token now with
  | .error e => .error e
  | .ok email =>
    if email = "" then .error .invalidToken
    else
      match db.find? (fun u => u.email == email) with
      | none => .error .userNotFound
      | some user =>
        .ok (db.map fun v =>
          if v.id == user.id then
            { v with hashed_password := get_password_hash new_password salt }
          else v)

/-! ### src/app/routes/users.py -/

/-- The `UserUpdate` request model (src/app/models/user.py): all fields
optional; `none` models a field excluded by `exclude_unset=True`. -/
structure UserUpdate where
  email : Option String := none
  username : Option String := none
  is_active : Option Bool := none
  role : Option UserRole := none
  password : Option String := none
deriving DecidableEq, Repr

/-- The shared update body of `update_user_me` and `update_user`: when
`"password"` is present AND truthy (non-empty), it is replaced in the
update dict by `hashed_password = get_password_hash(password)`; a
present-but-empty password is left in the dict untransformed, and the
`setattr(user, "password", "")` it leads to sets an attribute that is
not a mapped column, so no stored field changes from it.  All other
present fields are assigned onto the row. -/
def apply_user_update (user : User) (user_in : UserUpdate) (salt : String) :
    User :=
  let newHash : Option HashBlob :=
    match user_in.password with
    | some p => if p = "" then none else some (get_password_hash p salt)
    | none => none
  { user with
    email := user_in.email.getD user.email
    username := user_in.username.getD user.username
    is_active := user_in.is_active.getD user.is_active
    role := user_in.role.getD user.role
    hashed_password := newHash.getD user.hashed_password }

/-- The first guard of `update_user_me`:
`if user_in.email and user_in.email != current_user.email:` followed by
the store lookup — true when a truthy submitted email differs from the
current one and is already registered. -/
def email_conflict (db : Store) (current_user : User) (user_in : UserUpdate) :
    Bool :=
  match user_in.email with
  | some e => e != "" && e != current_user.email
      && (db.find? (fun u => u.email == e)).isSome
  | none => false

/-- The second guard of `update_user_me`, same shape for the username. -/
def username_conflict (db : Store) (current_user : User) (user_in : UserUpdate) :
    Bool :=
  match user_in.username with
  | some n => n != "" && n != current_user.username
      && (db.find? (fun u => u.username == n)).isSome
  | none => false

/-- `update_user_me`: a truthy submitted email that differs from the
current user's and is already registered is a 400; likewise for the
username; then the update body is applied to the current user. -/
def update_user_me (db : Store) (current_user : User) (user_in : UserUpdate)
    (salt : String) : Except ApiError User :=
  if email_conflict db current_user user_in then .error .emailTaken
  else if username_conflict db current_user user_in then .error .usernameTaken
  else .ok (apply_user_update current_user user_in salt)

/-- `update_user(user_id)`: 404 when no stored user has that id,
otherwise the update body applied to that row (this admin route has no
email/username conflict checks). -/
def update_user (db : Store) (user_id : String) (user_in : UserUpdate)
    (salt : String) : Except ApiError User :=
  match db.find? (fun u => u.id == user_id) with
  | none => .error .userNotFound
  | some user => .ok (apply_user_update user user_in salt)

/-! ### Shared concrete data for witnesses and counterexamples -/

/-- A demo stored identity used by concrete witness statements. -/
def demoUser : User :=
  ⟨"uid-1", "a@x.com", "a", get_password_hash "secret1" "s0", true, .user⟩

/-- The demo identity with the active flag cleared. -/
def demoInactiveUser : User :=
  ⟨"uid-2", "b@x.com", "b", get_password_hash "secret2" "s0", false, .user⟩

/-! ### Claims -/

/-- C1: password hash/verify round-trip with per-call salting — for every
plaintext `p` and any two distinct salts drawn by `gensalt`,
`verify_password p (get_password_hash p s)` is true, and the two hash
blobs differ while each still verifies against `p`. -/
theorem hash_verify_roundtrip_salted (p s₁ s₂ : String) (h : s₁ ≠ s₂) :
    verify_password p (get_password_hash p s₁) = .ok true ∧
    get_password_hash p s₁ ≠ get_password_hash p s₂ ∧
    verify_password p (get_password_hash p s₂) = .ok true := by
  refine ⟨?_, ?_, ?_⟩
  · simp [verify_password, get_password_hash, bcrypt_checkpw, bcrypt_hashpw]
  · intro hc
    simp only [get_password_hash, bcrypt_hashpw, HashBlob.wellFormed.injEq] at hc
    exact h hc.1
  · simp [verify_password, get_password_hash, bcrypt_checkpw, bcrypt_hashpw]

/-- Witness for C1 at plaintext "secret1" and salts "saltA", "saltB". -/
theorem hash_verify_roundtrip_salted_witness :
    verify_password "secret1" (get_password_hash "secret1" "saltA") = .ok true ∧
    get_password_hash "secret1" "saltA" ≠ get_password_hash "secret1" "saltB" ∧
    verify_password "secret1" (get_password_hash "secret1" "saltB") = .ok true :=
  hash_verify_roundtrip_salted "secret1" "saltA" "saltB" (by decide)

/-- C4 (code evaluation at the failing input): `verify_password` on a
structurally malformed hash blob propagates bcrypt's
`ValueError("Invalid salt")` instead of returning false — the call to
`bcrypt.checkpw` in src/app/crud/security.py has no exception handler. -/
theorem verify_password_raises_on_malformed_blob :
    verify_password "x" (.malformed "") = .error .invalidSalt ∧
    verify_password "x" (.malformed "") ≠ .ok false ∧
    verify_password "x" (.malformed "") ≠ .ok true := by
  decide

/-- C6: for every store, identifier and password, `authenticate_user`
returns exactly `None` both when the identifier matches no stored user
and when it matches a user whose stored hash does not verify the given
password; the returned value is the identical `Ok none` in both cases. -/
theorem authenticate_failure_indistinguishable (db : Store) (ident pw : String) :
    (db.find? (fun v => v.email == ident || v.username == ident) = none →
      authenticate_user db ident pw = .ok none) ∧
    (∀ u, db.find? (fun v => v.email == ident || v.username == ident) = some u →
      verify_password pw u.hashed_password = .ok false →
      authenticate_user db ident pw = .ok none) := by
  constructor
  · intro h
    simp [authenticate_user, h]
  · intro u hfind hv
    simp [authenticate_user, hfind, hv]

/-- Witness for C6: the unknown-identifier case and the wrong-password
case both yield `Ok none` on the demo store. -/
theorem authenticate_failure_indistinguishable_witness :
    authenticate_user [demoUser] "nobody" "secret1" = .ok none ∧
    authenticate_user [demoUser] "a" "wrongpass" = .ok none :=
  ⟨(authenticate_failure_indistinguishable [demoUser] "nobody" "secret1").1
      (by decide),
   (authenticate_failure_indistinguishable [demoUser] "a" "wrongpass").2
      demoUser (by decide) (by decide)⟩

/-- C8: `authenticate_user` ignores the active flag — whenever the
identifier matches a stored user (email or username) and the password
verifies, it returns that user, active or not; the active check is done
separately by the login handler, which rejects an inactive
authenticated user with the inactive-user error. -/
theorem authenticate_ignores_active_flag (db : Store) (ident pw : String)
    (u : User) (now : Int)
    (hfind : db.find? (fun v => v.email == ident || v.username == ident) = some u)
    (hverify : verify_password pw u.hashed_password = .ok true) :
    authenticate_user db ident pw = .ok (some u) ∧
    (u.is_active = false →
      login_access_token db ident pw now = .error .inactiveUser) := by
  have hauth : authenticate_user db ident pw = .ok (some u) := by
    simp [authenticate_user, hfind, hverify]
  refine ⟨hauth, ?_⟩
  intro hinact
  simp [login_access_token, hauth, hinact]

/-- Witness for C8: an inactive stored user still authenticates, and the
login route rejects it with the inactive-user error. -/
theorem authenticate_ignores_active_flag_witness :
    authenticate_user [demoInactiveUser] "b" "secret2" = .ok (some demoInactiveUser) ∧
    (demoInactiveUser.is_active = false →
      login_access_token [demoInactiveUser] "b" "secret2" 0 = .error .inactiveUser) :=
  authenticate_ignores_active_flag [demoInactiveUser] "b" "secret2"
    demoInactiveUser 0 (by decide) (by decide)

/-- C2 counterexample: a token issued with the zero ttl does not embed
expiry issue-time + ttl and does not fail once that instant has passed —
`if expires_delta:` tests the timedelta for truthiness and `timedelta(0)`
is falsy, so the token carries the 30-minute default expiry and still
decodes, with the same subject and role, at time 10 > issue-time + 0. -/
theorem access_token_zero_ttl_counterexample :
    jwt_decode (create_access_token "uid-1" "user" (some 0) 0) SECRET_KEY 10 =
      .ok { exp := some 1800, sub := some "uid-1", role := some "user" } ∧
    jwt_decode (create_access_token "uid-1" "user" (some 0) 0) SECRET_KEY 10 ≠
      .error .expiredSignature := by
  decide

/-- C2 (amended): token codec round-trip for every truthy (nonzero) ttl —
decoding a token issued by `create_access_token subject role ttl` with
the access-token decoder (`jwt.decode` under `SECRET_KEY`) returns the
same subject and role while the ttl has not elapsed and fails once the
expiry (issue-time + ttl) has passed; the expiry defaults to the
configured `ACCESS_TOKEN_EXPIRE_MINUTES` both when the ttl is not given
and when the given ttl is the falsy zero delta. -/
theorem access_token_roundtrip_truthy_ttl (subject role : String)
    (ttl now t : Int) (h0 : ttl ≠ 0) :
    (t ≤ now + ttl →
      jwt_decode (create_access_token subject role (some ttl) now) SECRET_KEY t =
        .ok { exp := some (now + ttl), sub := some subject, role := some role }) ∧
    (now + ttl < t →
      jwt_decode (create_access_token subject role (some ttl) now) SECRET_KEY t =
        .error .expiredSignature) ∧
    create_access_token subject role none now =
      create_access_token subject role (some (ACCESS_TOKEN_EXPIRE_MINUTES * 60)) now ∧
    create_access_token subject role (some 0) now =
      create_access_token subject role none now := by
  refine ⟨?_, ?_, ?_, ?_⟩
  · intro h
    have hx : ¬ (now + ttl < t) := by omega
    simp [create_access_token, jwt_decode, jwt_checkExp, hx, h0]
  · intro h
    simp [create_access_token, jwt_decode, jwt_checkExp, h, h0]
  · simp [create_access_token, ACCESS_TOKEN_EXPIRE_MINUTES]
  · simp [create_access_token]

/-- Witness for the amended C2 at subject "uid-1", role "user", ttl 60s
issued at 0: decoding succeeds at time 30 with the same subject and
role, and fails expired at time 100. -/
theorem access_token_roundtrip_truthy_ttl_witness :
    jwt_decode (create_access_token "uid-1" "user" (some 60) 0) SECRET_KEY 30 =
      .ok { exp := some 60, sub := some "uid-1", role := some "user" } ∧
    jwt_decode (create_access_token "uid-1" "user" (some 60) 0) SECRET_KEY 100 =
      .error .expiredSignature :=
  ⟨(access_token_roundtrip_truthy_ttl "uid-1" "user" 60 0 30 (by decide)).1 (by decide),
   (access_token_roundtrip_truthy_ttl "uid-1" "user" 60 0 100 (by decide)).2.1 (by decide)⟩

/-- C9: `get_current_user` itself checks the active flag after the store
lookup — any user it returns is active, so every endpoint guarded only
by it never serves an inactive account, and composing
`get_current_active_user` on top changes nothing. -/
theorem resolve_rejects_inactive (token : JwtToken) (db : Store) (now : Int)
    (u : User) (h : get_current_user token db now = .ok u) :
    u.is_active = true ∧ get_current_active_user token db now = .ok u := by
  have hact : u.is_active = true := by
    unfold get_current_user at h
    split at h
    · split at h <;> exact Except.noConfusion h
    · split at h
      · exact Except.noConfusion h
      · split at h
        · exact Except.noConfusion h
        · split at h
          · rename_i huser
            cases h
            exact huser
          · exact Except.noConfusion h
  refine ⟨hact, ?_⟩
  simp [get_current_active_user, h, hact]

/-- Witness for C9: resolving a valid token for the demo active user
returns it, it is active, and `get_current_active_user` agrees. -/
theorem resolve_rejects_inactive_witness :
    demoUser.is_active = true ∧
    get_current_active_user (create_access_token "uid-1" "user" (some 60) 0)
      [demoUser] 30 = .ok demoUser :=
  resolve_rejects_inactive (create_access_token "uid-1" "user" (some 60) 0)
    [demoUser] 30 demoUser (by decide)

/-- C3 counterexample: an expired access token does not produce the 401
`credentials_exception` — `get_current_user` catches only
`jwt.exceptions.DecodeError`, so the `ExpiredSignatureError` escapes as
an unhandled server error. -/
theorem resolve_expired_token_counterexample :
    get_current_user (create_access_token "uid-1" "user" (some 60) 0) [demoUser] 100 =
      .error (.unhandledJwt .expiredSignature) ∧
    get_current_user (create_access_token "uid-1" "user" (some 60) 0) [demoUser] 100 ≠
      .error .credentialsException := by
  decide

/-- C3 (amended): `get_current_user` fails with the single 401
`credentials_exception` when `jwt.decode` raises a `DecodeError` (bad
signature or structurally malformed token), when the decoded payload has
no subject, and when the subject matches no stored user — the
token-invalid and user-gone failures are the identical error; an
expired token, however, escapes as an unhandled `ExpiredSignatureError`
rather than this error. -/
theorem resolve_error_taxonomy (token : JwtToken) (db : Store) (now : Int) :
    (∀ e, jwt_decode token SECRET_KEY now = .error e → e.isDecodeError = true →
      get_current_user token db now = .error .credentialsException) ∧
    (∀ p, jwt_decode token SECRET_KEY now = .ok p → p.sub = none →
      get_current_user token db now = .error .credentialsException) ∧
    (∀ p s, jwt_decode token SECRET_KEY now = .ok p → p.sub = some s →
      db.find? (fun u => u.id == s) = none →
      get_current_user token db now = .error .credentialsException) ∧
    (∀ e, jwt_decode token SECRET_KEY now = .error e → e.isDecodeError = false →
      get_current_user token db now = .error (.unhandledJwt e)) := by
  refine ⟨?_, ?_, ?_, ?_⟩
  · intro e hdec hkind
    simp [get_current_user, hdec, hkind]
  · intro p hdec hsub
    simp [get_current_user, hdec, hsub]
  · intro p s hdec hsub hfind
    simp [get_current_user, hdec, hsub, hfind]
  · intro e hdec hkind
    simp [get_current_user, hdec, hkind]

/-- Witness for the amended C3: on the demo store, a token signed with
the wrong key, a malformed token string, a valid token with no subject,
a valid token whose subject matches no user, and an expired token each
land in the stated error. -/
theorem resolve_error_taxonomy_witness :
    get_current_user (.signed { exp := some 60, sub := some "uid-1", role := some "user" } "other-key")
      [demoUser] 30 = .error .credentialsException ∧
    get_current_user (.malformed "garbage") [demoUser] 30 = .error .credentialsException ∧
    get_current_user (.signed { exp := some 60 } SECRET_KEY) [demoUser] 30 =
      .error .credentialsException ∧
    get_current_user (.signed { exp := some 60, sub := some "ghost", role := some "user" } SECRET_KEY)
      [demoUser] 30 = .error .credentialsException ∧
    get_current_user (.signed { exp := some 10, sub := some "uid-1", role := some "user" } SECRET_KEY)
      [demoUser] 30 = .error (.unhandledJwt .expiredSignature) :=
  ⟨(resolve_error_taxonomy _ [demoUser] 30).1 .invalidSignature (by decide) (by decide),
   (resolve_error_taxonomy _ [demoUser] 30).1 .decodeError (by decide) (by decide),
   (resolve_error_taxonomy _ [demoUser] 30).2.1 { exp := some 60 } (by decide) (by decide),
   (resolve_error_taxonomy _ [demoUser] 30).2.2.1
     { exp := some 60, sub := some "ghost", role := some "user" } "ghost"
     (by decide) (by decide) (by decide),
   (resolve_error_taxonomy _ [demoUser] 30).2.2.2 .expiredSignature (by decide) (by decide)⟩

/-- C5 counterexample: a fresh access token passed to the reset-confirm
route is rejected with the 404 user-not-found error, not the 400
invalid-token error — `verify_password_reset_token` happily decodes it
(same key, same algorithm, `sub` present) and returns the subject id,
which then fails the email lookup. -/
theorem access_token_to_confirm_reset_counterexample :
    reset_password_confirm [demoUser]
      (create_access_token "uid-1" "user" (some 60) 0) "newpass" 10 "s1" =
      .error .userNotFound ∧
    reset_password_confirm [demoUser]
      (create_access_token "uid-1" "user" (some 60) 0) "newpass" 10 "s1" ≠
      .error .invalidToken := by
  decide

/-- C5 (amended): the two token types are not interchangeable in effect,
but not for the claimed reason — an unexpired access token given to
`reset_password_confirm` decodes successfully and fails only at the
email lookup, with the user-not-found error (there is no payload-shape
validation and no INVALID_TOKEN failure); a reset token given to the
access-token guard decodes successfully but resolves no identity,
failing with the 401 credentials error, whenever no stored user's id
equals the token's email subject. -/
theorem token_types_not_interchangeable (db : Store) (sid r newPw salt email : String)
    (ttl now t now₂ t₂ : Int)
    (hsid : sid ≠ "")
    (hvalid : t ≤ now + ttl)
    (hnoEmail : db.find? (fun u => u.email == sid) = none)
    (hnbf : now₂ ≤ t₂)
    (hexp : t₂ ≤ now₂ + EMAIL_RESET_TOKEN_EXPIRE_HOURS * 3600)
    (hnoId : db.find? (fun u => u.id == email) = none) :
    reset_password_confirm db (create_access_token sid r (some ttl) now) newPw t salt =
      .error .userNotFound ∧
    get_current_user (generate_password_reset_token email now₂) db t₂ =
      .error .credentialsException := by
  constructor
  · by_cases h0 : ttl = 0
    · subst h0
      have hx : ¬ (now + ACCESS_TOKEN_EXPIRE_MINUTES * 60 < t) := by
        simp only [ACCESS_TOKEN_EXPIRE_MINUTES]
        omega
      simp [reset_password_confirm, verify_password_reset_token, create_access_token,
        jwt_decode, jwt_checkExp, hx, hsid, hnoEmail]
    · have hx : ¬ (now + ttl < t) := by omega
      simp [reset_password_confirm, verify_password_reset_token, create_access_token,
        jwt_decode, jwt_checkExp, hx, hsid, hnoEmail, h0]
  · have h₁ : ¬ (t₂ < now₂) := by omega
    have h₂ : ¬ (now₂ + EMAIL_RESET_TOKEN_EXPIRE_HOURS * 3600 < t₂) := by omega
    simp [get_current_user, generate_password_reset_token, jwt_decode,
      jwt_checkExp, h₁, h₂, hnoId]

/-- Witness for the amended C5 on the demo store: the access token fails
reset-confirm with user-not-found, and a reset token for the demo email
fails the access guard with the credentials error. -/
theorem token_types_not_interchangeable_witness :
    reset_password_confirm [demoUser]
      (create_access_token "uid-1" "user" (some 60) 0) "newpass" 10 "s1" =
      .error .userNotFound ∧
    get_current_user (generate_password_reset_token "a@x.com" 0) [demoUser] 10 =
      .error .credentialsException :=
  token_types_not_interchangeable [demoUser] "uid-1" "user" "newpass" "s1" "a@x.com"
    60 0 10 0 10 (by decide) (by decide) (by decide) (by decide) (by decide) (by decide)

/-- C7: a successful reset-confirm replaces the credential — for a
stored user and a reset token carrying that user's email, the route
overwrites the stored hash with the hash of the new password, after
which the new password verifies against the stored hash and any
different old password no longer does. -/
theorem confirm_reset_replaces_credential (db : Store) (u : User)
    (now t : Int) (newPw oldPw salt : String)
    (hmail : u.email ≠ "")
    (hfindE : db.find? (fun v => v.email == u.email) = some u)
    (hfindI : db.find? (fun v => v.id == u.id) = some u)
    (hnbf : now ≤ t)
    (hexp : t ≤ now + EMAIL_RESET_TOKEN_EXPIRE_HOURS * 3600)
    (hne : oldPw ≠ newPw) :
    ∃ db' u',
      reset_password_confirm db (generate_password_reset_token u.email now)
        newPw t salt = .ok db' ∧
      db'.find? (fun v => v.id == u.id) = some u' ∧
      u'.hashed_password = get_password_hash newPw salt ∧
      verify_password newPw u'.hashed_password = .ok true ∧
      verify_password oldPw u'.hashed_password = .ok false := by
  have h₁ : ¬ (t < now) := by omega
  have h₂ : ¬ (now + EMAIL_RESET_TOKEN_EXPIRE_HOURS * 3600 < t) := by omega
  refine ⟨db.map (fun v => if v.id == u.id then
      { v with hashed_password := get_password_hash newPw salt } else v),
    { u with hashed_password := get_password_hash newPw salt }, ?_, ?_, rfl, ?_, ?_⟩
  · simp [reset_password_confirm, verify_password_reset_token,
      generate_password_reset_token, jwt_decode, jwt_checkExp, h₁, h₂, hmail, hfindE]
  · rw [List.find?_map]
    have hpf : ((fun v : User => v.id == u.id) ∘
        (fun v : User => if v.id == u.id then
          { v with hashed_password := get_password_hash newPw salt } else v)) =
        fun v : User => v.id == u.id := by
      funext v
      by_cases hv : v.id = u.id <;> simp [hv]
    rw [hpf, hfindI]
    simp
  · simp [verify_password, get_password_hash, bcrypt_checkpw, bcrypt_hashpw]
  · simp [verify_password, get_password_hash, bcrypt_checkpw, bcrypt_hashpw,
      bcrypt_kdf]
    exact fun hc => absurd hc.symm hne

/-- Witness for C7: resetting the demo user's password to "newpass" with
a token for its email yields a store whose stored hash verifies
"newpass" and no longer verifies "secret1". -/
theorem confirm_reset_replaces_credential_witness :
    ∃ db' u',
      reset_password_confirm [demoUser]
        (generate_password_reset_token demoUser.email 0) "newpass" 10 "s1" = .ok db' ∧
      db'.find? (fun v => v.id == demoUser.id) = some u' ∧
      u'.hashed_password = get_password_hash "newpass" "s1" ∧
      verify_password "newpass" u'.hashed_password = .ok true ∧
      verify_password "secret1" u'.hashed_password = .ok false :=
  confirm_reset_replaces_credential [demoUser] demoUser 0 10 "newpass" "secret1" "s1"
    (by decide) (by decide) (by decide) (by decide) (by decide) (by decide)

/-- C10: a profile update whose password field is present but empty
leaves the credential unchanged — both `update_user_me` and
`update_user` skip re-hashing when the submitted password is the empty
string (only a truthy password enters the hashing branch), while the
other submitted fields are still applied to the row. -/
theorem empty_password_update_preserves_hash (db : Store) (current_user : User)
    (user_in : UserUpdate) (salt user_id : String) (target u₁ u₂ : User)
    (hpw : user_in.password = some "")
    (h₁ : update_user_me db current_user user_in salt = .ok u₁)
    (hfind : db.find? (fun v => v.id == user_id) = some target)
    (h₂ : update_user db user_id user_in salt = .ok u₂) :
    u₁.hashed_password = current_user.hashed_password ∧
    u₂.hashed_password = target.hashed_password ∧
    u₁.email = user_in.email.getD current_user.email ∧
    u₁.username = user_in.username.getD current_user.username ∧
    u₁.is_active = user_in.is_active.getD current_user.is_active ∧
    u₁.role = user_in.role.getD current_user.role ∧
    u₂.email = user_in.email.getD target.email ∧
    u₂.username = user_in.username.getD target.username := by
  have hu₁ : u₁ = apply_user_update current_user user_in salt := by
    unfold update_user_me at h₁
    split at h₁
    · exact Except.noConfusion h₁
    · split at h₁
      · exact Except.noConfusion h₁
      · cases h₁
        rfl
  have hu₂ : u₂ = apply_user_update target user_in salt := by
    unfold update_user at h₂
    rw [hfind] at h₂
    cases h₂
    rfl
  subst hu₁ hu₂
  simp [apply_user_update, hpw]

/-- Witness for C10: an update submitting an empty password together
with a new username changes the username on both routes and leaves the
stored hash untouched. -/
theorem empty_password_update_preserves_hash_witness :
    (apply_user_update demoUser
        { username := some "renamed", password := some "" } "s9").hashed_password =
      demoUser.hashed_password ∧
    (apply_user_update demoUser
        { username := some "renamed", password := some "" } "s9").hashed_password =
      demoUser.hashed_password ∧
    (apply_user_update demoUser
        { username := some "renamed", password := some "" } "s9").email =
      (Option.none).getD demoUser.email ∧
    (apply_user_update demoUser
        { username := some "renamed", password := some "" } "s9").username =
      (some "renamed").getD demoUser.username ∧
    (apply_user_update demoUser
        { username := some "renamed", password := some "" } "s9").is_active =
      (Option.none).getD demoUser.is_active ∧
    (apply_user_update demoUser
        { username := some "renamed", password := some "" } "s9").role =
      (Option.none).getD demoUser.role ∧
    (apply_user_update demoUser
        { username := some "renamed", password := some "" } "s9").email =
      (Option.none).getD demoUser.email ∧
    (apply_user_update demoUser
        { username := some "renamed", password := some "" } "s9").username =
      (some "renamed").getD demoUser.username :=
  empty_password_update_preserves_hash [demoUser] demoUser
    { username := some "renamed", password := some "" } "s9" "uid-1" demoUser
    (apply_user_update demoUser { username := some "renamed", password := some "" } "s9")
    (apply_user_update demoUser { username := some "renamed", password := some "" } "s9")
    (by decide) (by decide) (by decide) (by decide)

end App
